import Mathlib

/-!
Verification development for the Norwegian Singles training-plan generator.

The TypeScript sources are embedded shallowly:
* machine numbers are modelled as exact rationals `ℚ` (JavaScript `Math.floor`
  and `Math.round` become explicit floor/round operations on `ℚ`);
* the transcendental floating-point function `calculateVDOT` (it evaluates
  `Math.exp`) is not given a body; every place that branches on its value
  receives the branching decision as an explicit oracle parameter, so theorems
  quantified over all oracles hold in particular for the real float behaviour;
* fallible code returns `Option`/`Except`, a JavaScript `TypeError` and a
  non-terminating loop are explicit constructors of a result type.
-/

/-- JavaScript `Math.round` on an exact rational: round half toward +∞. -/
def jsRound (q : ℚ) : ℤ := ⌊q + 1/2⌋

/-- JavaScript `Math.floor` on an exact rational. -/
def jsFloor (q : ℚ) : ℤ := ⌊q⌋

/-- Truncation toward zero, used by the JavaScript `%` operator. -/
def truncQ (q : ℚ) : ℤ := if q < 0 then ⌈q⌉ else ⌊q⌋

/-- JavaScript `%` (remainder with the sign of the dividend) on rationals,
for a nonzero divisor. -/
def jsMod (a b : ℚ) : ℚ := a - b * (truncQ (a / b) : ℚ)

/-- The whitespace code points stripped by JavaScript `Number()` before
reading a numeric literal. -/
def isJsWhitespace (c : Char) : Bool :=
  c.toNat ∈ [0x9, 0xA, 0xB, 0xC, 0xD, 0x20, 0xA0, 0x1680,
    0x2000, 0x2001, 0x2002, 0x2003, 0x2004, 0x2005, 0x2006, 0x2007,
    0x2008, 0x2009, 0x200A, 0x2028, 0x2029, 0x202F, 0x205F, 0x3000, 0xFEFF]

/-- Value of a decimal digit character, `none` for any other character. -/
def digitVal (c : Char) : Option ℕ :=
  if '0' ≤ c ∧ c ≤ '9' then some (c.toNat - 48) else none

/-- Splits a character list into its longest prefix of decimal digits
(as digit values) and the remainder. -/
def readDigits : List Char → List ℕ × List Char
  | [] => ([], [])
  | c :: rest =>
    match digitVal c with
    | some d => let (ds, r) := readDigits rest; (d :: ds, r)
    | none => ([], c :: rest)

/-- Natural number denoted by a digit-value list (most significant first). -/
def digitsToNat (ds : List ℕ) : ℕ := ds.foldl (fun acc d => 10 * acc + d) 0

/-- Rational fraction denoted by a digit-value list read after a decimal
point: `[1,2,5]` denotes `0.125`. -/
def digitsToFrac (ds : List ℕ) : ℚ := ds.foldr (fun d acc => ((d : ℚ) + acc) / 10) 0

/-- Reads an optional sign; returns `true` for a leading minus. -/
def readSign : List Char → Bool × List Char
  | '-' :: rest => (true, rest)
  | '+' :: rest => (false, rest)
  | cs => (false, cs)

/-- Reads the exponent part of a decimal literal (after `e`/`E`): an
optional sign followed by at least one digit, consuming the whole rest. -/
def readExponent (cs : List Char) : Option ℤ :=
  let (neg, cs₁) := readSign cs
  let (ds, cs₂) := readDigits cs₁
  if ds.isEmpty ∨ ¬cs₂.isEmpty then none
  else some (if neg then -(digitsToNat ds : ℤ) else (digitsToNat ds : ℤ))

/-- Reads an unsigned decimal literal `digits [. digits] [e|E exponent]`,
requiring at least one digit overall and full consumption of the input. -/
def readDecimal (cs : List Char) : Option ℚ :=
  let (intDs, cs₁) := readDigits cs
  let (fracDs, cs₂) :=
    match cs₁ with
    | '.' :: rest => readDigits rest
    | _ => ([], cs₁)
  if intDs.isEmpty ∧ fracDs.isEmpty then none
  else
    let mantissa : ℚ := (digitsToNat intDs : ℚ) + digitsToFrac fracDs
    match cs₂ with
    | [] => some mantissa
    | 'e' :: rest => (readExponent rest).map (fun e => mantissa * (10 : ℚ) ^ e)
    | 'E' :: rest => (readExponent rest).map (fun e => mantissa * (10 : ℚ) ^ e)
    | _ => none

/-- Model of JavaScript `Number()` applied to a string, restricted to finite
decimal literals: surrounding whitespace is stripped, the empty string denotes
`0`, otherwise an optional sign followed by a decimal literal with optional
fraction and exponent. `none` models `NaN`. The `Infinity`, hexadecimal,
octal and binary forms, and IEEE-754 double rounding, are outside the model;
the value is kept as an exact rational. -/
def jsNumber (s : String) : Option ℚ :=
  let core := ((s.data.dropWhile isJsWhitespace).reverse.dropWhile isJsWhitespace).reverse
  if core.isEmpty then some 0
  else
    let (neg, cs) := readSign core
    (readDecimal cs).map (fun q => if neg then -q else q)

/-- JavaScript `String.prototype.split` with a single-character separator;
always returns a nonempty list, and `"".split(sep) = [""]`. -/
def splitOnChar (sep : Char) : List Char → List (List Char)
  | [] => [[]]
  | c :: rest =>
    if c = sep then [] :: splitOnChar sep rest
    else
      match splitOnChar sep rest with
      | h :: t => (c :: h) :: t
      | [] => [[c]]

/-- `timeStr.split(':')` from the sources, as Lean strings. -/
def jsSplitColon (s : String) : List String := (splitOnChar ':' s.data).map String.mk

/-- `ParsedTime` from `src/types/index.ts`; fields are JavaScript numbers,
modelled as exact rationals. -/
structure ParsedTime where
  hours : ℚ
  minutes : ℚ
  seconds : ℚ
  totalSeconds : ℚ
deriving DecidableEq, Repr

/-- `parseTime` from `src/lib/vdot.ts`: splits on `:`, converts each part with
`Number`, accepts 2 parts (`mm:ss`) or 3 parts (`h:mm:ss`), and rejects
minutes/seconds outside `[0, 60)` and negative hours. The guard
`if (!timeStr)` rejects exactly the empty string. -/
def parseTimeCore (parts : List (Option ℚ)) : Option ParsedTime :=
  if parts.any (·.isNone) then none
  else
    match parts with
    | [some m, some s] =>
      if m ≥ 60 ∨ s ≥ 60 ∨ m < 0 ∨ s < 0 then none
      else some ⟨0, m, s, 0 * 3600 + m * 60 + s⟩
    | [some h, some m, some s] =>
      if m ≥ 60 ∨ s ≥ 60 ∨ m < 0 ∨ s < 0 ∨ h < 0 then none
      else some ⟨h, m, s, h * 3600 + m * 60 + s⟩
    | _ => none

def parseTime (timeStr : String) : Option ParsedTime :=
  if timeStr = "" then none
  else parseTimeCore ((jsSplitColon timeStr).map jsNumber)

/-- `parseTimeString` from the plan generator: like `parseTime` but without
any range checks, returning total seconds directly (2 parts: `m*60+s`,
3 parts: `h*3600+m*60+s`). -/
def parseTimeString (timeStr : String) : Option ℚ :=
  let parts := (jsSplitColon timeStr).map jsNumber
  if parts.any (·.isNone) then none
  else
    match parts with
    | [some a, some b] => some (a * 60 + b)
    | [some a, some b, some c] => some (a * 3600 + b * 60 + c)
    | _ => none

/-- Decision taken by one iteration of the binary search in
`calculateTimeFromVDOT` (`src/lib/vdot.ts`), comparing
`calculateVDOT(distanceMeters, mid)` with the target `vdot`:
`ret` for `|calculated - vdot| < 0.1` (return `mid`), `up` for
`calculated > vdot` (set `low := mid`), `down` otherwise (set `high := mid`).
The comparison itself is a transcendental floating-point computation
(`Math.exp`), so it is abstracted as an oracle; theorems below are
quantified over every oracle. -/
inductive BsStep
  | ret
  | up
  | down
deriving DecidableEq, Repr

/-- Oracle family: for each `(vdot, distanceMeters)` pair, the decision the
floating-point comparison of `calculateVDOT(distanceMeters, mid)` against
`vdot` takes at a candidate `mid`. -/
abbrev VdotOracle := ℚ → ℚ → ℕ → BsStep

/-- The `while (high - low > 1)` loop of `calculateTimeFromVDOT`, with an
explicit iteration budget `fuel`; `none` means the budget was exhausted
before the loop exited (shown below never to happen from the source's
starting bracket). On exit the source returns `Math.round((low+high)/2)`,
which on naturals is `(low+high+1)/2`. -/
def bsLoopFuel (oracle : ℕ → BsStep) : ℕ → ℕ → ℕ → Option ℕ
  | 0, low, high =>
    if high - low > 1 then none else some ((low + high + 1) / 2)
  | fuel + 1, low, high =>
    if high - low > 1 then
      let mid := (low + high) / 2
      match oracle mid with
      | .ret => some mid
      | .up => bsLoopFuel oracle fuel mid high
      | .down => bsLoopFuel oracle fuel low mid
    else some ((low + high + 1) / 2)

/-- `calculateTimeFromVDOT` from `src/lib/vdot.ts`: binary search over the
bracket `[60, 21600]` (1 minute to 6 hours). 17 iterations are enough for
that bracket (proved below), so the fuel never runs out. -/
def calculateTimeFromVDOT (ofl : VdotOracle) (vdot distanceMeters : ℚ) : Option ℕ :=
  bsLoopFuel (ofl vdot distanceMeters) 17 60 21600

/-- The meter distances of `DISTANCE_METERS` in `src/types/index.ts`. -/
inductive Distance
  | d5K
  | d10K
  | d21K
  | d42K
deriving DecidableEq, Repr

def DISTANCE_METERS : Distance → ℚ
  | .d5K => 5000
  | .d10K => 10000
  | .d21K => 21097.5
  | .d42K => 42195

/-- A `{min, max}` pair as used for reps and pace ranges. -/
structure MinMax (α : Type) where
  min : α
  max : α
deriving DecidableEq, Repr

/-- `Paces.intervals` from `src/types/index.ts`. -/
structure IntervalPaces where
  short : MinMax ℤ
  medium : MinMax ℤ
  long : MinMax ℤ
deriving DecidableEq, Repr

/-- `Paces` from `src/types/index.ts` (seconds per km; the source stores the
rounded values as JavaScript numbers, here `ℤ`). -/
structure Paces where
  threshold : ℤ
  easy : ℤ
  intervals : IntervalPaces
deriving DecidableEq, Repr

/-- `calculateThresholdPace` from `src/lib/paces.ts`: inverts VDOT at
`vdot * 0.88 + 5` over 15000 m and divides the resulting time by 15 km.
The binary search always returns `some` (proved below); `getD 0` is the
formal escape for the impossible `none` branch. -/
def calculateThresholdPace (ofl : VdotOracle) (vdot : ℚ) : ℚ :=
  ((calculateTimeFromVDOT ofl (vdot * 0.88 + 5) 15000).getD 0 : ℚ) / 15

/-- `calculateEasyPaceFromThreshold` from `src/lib/paces.ts`. -/
def calculateEasyPaceFromThreshold (thresholdPace : ℚ) : ℚ := thresholdPace * 1.38

/-- `calculateNSIntervalPaces` from `src/lib/paces.ts`: 15K, half-marathon
and 30K equivalent paces, floored into `[min, max]` windows. -/
def calculateNSIntervalPaces (ofl : VdotOracle) (vdot : ℚ) : IntervalPaces :=
  let pace15K : ℚ := ((calculateTimeFromVDOT ofl vdot 15000).getD 0 : ℚ) / 15
  let paceHM : ℚ := ((calculateTimeFromVDOT ofl vdot 21097.5).getD 0 : ℚ) / 21.0975
  let pace30K : ℚ := ((calculateTimeFromVDOT ofl vdot 30000).getD 0 : ℚ) / 30
  { short := ⟨jsFloor (pace15K - 3), jsFloor (pace15K + 4)⟩
    medium := ⟨jsFloor (paceHM - 3), jsFloor (paceHM + 4)⟩
    long := ⟨jsFloor (pace30K - 3), jsFloor (pace30K + 5)⟩ }

/-- `calculatePaces` from `src/lib/paces.ts`: the easy pace is derived from
the unrounded threshold pace, then both are rounded. -/
def calculatePaces (ofl : VdotOracle) (vdot : ℚ) : Paces :=
  let threshold := calculateThresholdPace ofl vdot
  let easy := calculateEasyPaceFromThreshold threshold
  { threshold := jsRound threshold
    easy := jsRound easy
    intervals := calculateNSIntervalPaces ofl vdot }

/-- Each iteration of the search loop halves the bracket, so any fuel with
`2 ^ fuel` at least the bracket width suffices: the loop exits with a result
strictly inside `(low, high]`. -/
theorem bsLoopFuel_isSome : ∀ (fuel : ℕ) (oracle : ℕ → BsStep) (low high : ℕ),
    low < high → high - low ≤ 2 ^ fuel →
    ∃ r, bsLoopFuel oracle fuel low high = some r ∧ low < r ∧ r ≤ high := by
  intro fuel
  induction fuel with
  | zero =>
    intro oracle low high hlt hle
    simp only [pow_zero] at hle
    refine ⟨(low + high + 1) / 2, ?_, by omega, by omega⟩
    unfold bsLoopFuel
    rw [if_neg (by omega)]
  | succ f ih =>
    intro oracle low high hlt hle
    by_cases h : high - low > 1
    · have h2 : (2 : ℕ) ^ (f + 1) = 2 * 2 ^ f := by ring
      rw [h2] at hle
      unfold bsLoopFuel
      rw [if_pos h]
      cases ho : oracle ((low + high) / 2) with
      | ret =>
        exact ⟨(low + high) / 2, by simp [ho], by omega, by omega⟩
      | up =>
        obtain ⟨r, hr, hr1, hr2⟩ := ih oracle ((low + high) / 2) high (by omega) (by omega)
        exact ⟨r, by simp [ho, hr], by omega, hr2⟩
      | down =>
        obtain ⟨r, hr, hr1, hr2⟩ := ih oracle low ((low + high) / 2) (by omega) (by omega)
        exact ⟨r, by simp [ho, hr], hr1, by omega⟩
    · refine ⟨(low + high + 1) / 2, ?_, by omega, by omega⟩
      unfold bsLoopFuel
      rw [if_neg h]

/-- Extra fuel does not change a search that already finished. -/
theorem bsLoopFuel_fuel_succ : ∀ (f : ℕ) (oracle : ℕ → BsStep) (low high r : ℕ),
    bsLoopFuel oracle f low high = some r →
    bsLoopFuel oracle (f + 1) low high = some r := by
  intro f
  induction f with
  | zero =>
    intro oracle low high r hr
    unfold bsLoopFuel at hr ⊢
    by_cases h : high - low > 1
    · rw [if_pos h] at hr; exact absurd hr (by simp)
    · rw [if_neg h] at hr ⊢; exact hr
  | succ f ih =>
    intro oracle low high r hr
    unfold bsLoopFuel at hr ⊢
    by_cases h : high - low > 1
    · rw [if_pos h] at hr ⊢
      cases ho : oracle ((low + high) / 2) with
      | ret => simpa [ho] using hr
      | up => simp only [ho] at hr ⊢; exact ih oracle _ _ _ hr
      | down => simp only [ho] at hr ⊢; exact ih oracle _ _ _ hr
    · rw [if_neg h] at hr ⊢; exact hr

/-- Claim C9: `calculateTimeFromVDOT` terminates for every vdot and distance:
the binary-search loop over `[60 s, 21600 s]` always exits — already 15
iterations suffice for the bracket width 21540 (the fuel 17 of the definition
is never exhausted), because the bracket width halves each iteration until it
is at most 1. The result lies strictly inside the bracket. -/
theorem calculateTimeFromVDOT_terminates (ofl : VdotOracle) (vdot distanceMeters : ℚ) :
    ∃ r, calculateTimeFromVDOT ofl vdot distanceMeters = some r ∧
      bsLoopFuel (ofl vdot distanceMeters) 15 60 21600 = some r ∧
      60 < r ∧ r ≤ 21600 := by
  obtain ⟨r, hr, h1, h2⟩ :=
    bsLoopFuel_isSome 15 (ofl vdot distanceMeters) 60 21600 (by norm_num) (by norm_num)
  refine ⟨r, ?_, hr, h1, h2⟩
  exact bsLoopFuel_fuel_succ 16 _ _ _ _ (bsLoopFuel_fuel_succ 15 _ _ _ _ hr)

/-- Claim C7: for every vdot, the paces returned by `calculatePaces` satisfy
`threshold < easy`: the threshold pace in seconds per km is strictly smaller
(faster) than the easy pace. The binary search returns an integer time of at
least 61 seconds over 15 km, so the 38 % easy-pace markup exceeds one full
second per km and survives the rounding of both paces. -/
theorem calculatePaces_threshold_lt_easy (ofl : VdotOracle) (vdot : ℚ) (h : 0 < vdot) :
    (calculatePaces ofl vdot).threshold < (calculatePaces ofl vdot).easy := by
  obtain ⟨r, hr, h1, h2⟩ :=
    bsLoopFuel_isSome 17 (ofl (vdot * 0.88 + 5) 15000) 60 21600 (by norm_num) (by norm_num)
  simp only [calculatePaces, calculateThresholdPace, calculateEasyPaceFromThreshold,
    calculateTimeFromVDOT, hr, Option.getD_some]
  set x : ℚ := ((r : ℕ) : ℚ) / 15 with hx
  have hr61 : (61 : ℚ) ≤ (r : ℚ) := by exact_mod_cast h1
  have hxge : (61 : ℚ) / 15 ≤ x := by
    rw [hx]
    exact (div_le_div_right (by norm_num)).mpr hr61
  show jsRound x < jsRound (x * 1.38)
  unfold jsRound
  have key : x + 1 / 2 + 1 ≤ x * 1.38 + 1 / 2 := by nlinarith [hxge]
  calc ⌊x + 1 / 2⌋ < ⌊x + 1 / 2⌋ + 1 := lt_add_one _
    _ = ⌊x + 1 / 2 + 1⌋ := (Int.floor_add_one _).symm
    _ ≤ ⌊x * 1.38 + 1 / 2⌋ := Int.floor_le_floor key

/-- Witness for C7 at vdot 1 and the oracle that always reports the
tolerance hit. -/
theorem calculatePaces_threshold_lt_easy_witness :
    (0 : ℚ) < 1 ∧
      (calculatePaces (fun _ _ _ => BsStep.ret) 1).threshold <
        (calculatePaces (fun _ _ _ => BsStep.ret) 1).easy :=
  ⟨by norm_num, calculatePaces_threshold_lt_easy (fun _ _ _ => BsStep.ret) 1 (by norm_num)⟩


/-- Exact acceptance behaviour of the validation half of `parseTime`, as a
function of the `Number`-converted parts. -/
theorem parseTimeCore_spec (parts : List (Option ℚ)) :
    (parseTimeCore parts = none ↔
      parts.any (·.isNone) = true ∨
      ¬(parts.length = 2 ∨ parts.length = 3) ∨
      (∃ m sec, parts = [some m, some sec] ∧
        (m ≥ 60 ∨ sec ≥ 60 ∨ m < 0 ∨ sec < 0)) ∨
      (∃ hh m sec, parts = [some hh, some m, some sec] ∧
        (m ≥ 60 ∨ sec ≥ 60 ∨ m < 0 ∨ sec < 0 ∨ hh < 0))) ∧
    (∀ pt, parseTimeCore parts = some pt →
      pt.totalSeconds = pt.hours * 3600 + pt.minutes * 60 + pt.seconds ∧
      0 ≤ pt.minutes ∧ pt.minutes < 60 ∧ 0 ≤ pt.seconds ∧ pt.seconds < 60 ∧
      0 ≤ pt.hours ∧ (parts.length = 2 ∨ parts.length = 3)) := by
  rcases parts with _ | ⟨a, _ | ⟨b, _ | ⟨c, _ | ⟨d, rest⟩⟩⟩⟩
  · simp [parseTimeCore]
  · rcases a with _ | v <;> simp [parseTimeCore]
  · rcases a with _ | m
    · simp [parseTimeCore]
    · rcases b with _ | sec
      · simp [parseTimeCore]
      · by_cases hcond : m ≥ 60 ∨ sec ≥ 60 ∨ m < 0 ∨ sec < 0
        · have hval : parseTimeCore [some m, some sec] = none := by
            simp [parseTimeCore, if_pos hcond]
          rw [hval]
          constructor
          · exact iff_of_true rfl (Or.inr (Or.inr (Or.inl ⟨m, sec, rfl, hcond⟩)))
          · intro pt hpt; exact absurd hpt (by simp)
        · have hval : parseTimeCore [some m, some sec] =
              some ⟨0, m, sec, 0 * 3600 + m * 60 + sec⟩ := by
            simp [parseTimeCore, if_neg hcond]
          rw [hval]
          push_neg at hcond
          obtain ⟨h1, h2, h3, h4⟩ := hcond
          constructor
          · constructor
            · intro habs; exact absurd habs (by simp)
            · intro hrhs
              rcases hrhs with h | h | h | h
              · simp at h
              · simp at h
              · obtain ⟨m', sec', heq, hc⟩ := h
                obtain ⟨rfl, rfl⟩ : m = m' ∧ sec = sec' := by simpa using heq
                exact absurd hc (by push_neg; exact ⟨h1, h2, h3, h4⟩)
              · obtain ⟨hh', m', sec', heq, _⟩ := h
                simp at heq
          · intro pt hpt
            obtain rfl := (Option.some.inj hpt).symm
            exact ⟨by ring, h3, h1, h4, h2, le_refl 0, Or.inl rfl⟩
  · rcases a with _ | hh
    · simp [parseTimeCore]
    · rcases b with _ | m
      · simp [parseTimeCore]
      · rcases c with _ | sec
        · simp [parseTimeCore]
        · by_cases hcond : m ≥ 60 ∨ sec ≥ 60 ∨ m < 0 ∨ sec < 0 ∨ hh < 0
          · have hval : parseTimeCore [some hh, some m, some sec] = none := by
              simp [parseTimeCore, if_pos hcond]
            rw [hval]
            constructor
            · exact iff_of_true rfl (Or.inr (Or.inr (Or.inr ⟨hh, m, sec, rfl, hcond⟩)))
            · intro pt hpt; exact absurd hpt (by simp)
          · have hval : parseTimeCore [some hh, some m, some sec] =
                some ⟨hh, m, sec, hh * 3600 + m * 60 + sec⟩ := by
              simp [parseTimeCore, if_neg hcond]
            rw [hval]
            push_neg at hcond
            obtain ⟨h1, h2, h3, h4, h5⟩ := hcond
            constructor
            · constructor
              · intro habs; exact absurd habs (by simp)
              · intro hrhs
                rcases hrhs with h | h | h | h
                · simp at h
                · simp at h
                · obtain ⟨m', sec', heq, _⟩ := h
                  simp at heq
                · obtain ⟨hh', m', sec', heq, hc⟩ := h
                  obtain ⟨rfl, rfl, rfl⟩ : hh = hh' ∧ m = m' ∧ sec = sec' := by
                    simpa using heq
                  exact absurd hc (by push_neg; exact ⟨h1, h2, h3, h4, h5⟩)
            · intro pt hpt
              obtain rfl := (Option.some.inj hpt).symm
              exact ⟨by ring, h3, h1, h4, h2, h5, Or.inr rfl⟩
  · have hval : parseTimeCore (a :: b :: c :: d :: rest) = none := by
      by_cases ha : (a :: b :: c :: d :: rest).any (·.isNone)
      · simp [parseTimeCore, ha]
      · simp [parseTimeCore, ha]
    rw [hval]
    constructor
    · constructor
      · intro _
        refine Or.inr (Or.inl ?_)
        simp
      · intro _; rfl
    · intro pt hpt; exact absurd hpt (by simp)

/-- Claim C8 (amended): `parseTime` accepts exactly strings of 2 or 3
colon-separated numeric parts — numeric in the JavaScript `Number` sense, so
fractional (and empty, meaning 0) parts are accepted too, not only integer
ones — and returns `none` (never throws) precisely when: the string is empty,
any part is non-numeric, the part count is not 2 or 3, minutes ≥ 60,
seconds ≥ 60, or any part is negative; on success `totalSeconds` equals
`hours*3600 + minutes*60 + seconds`. -/
theorem parseTime_spec (s : String) :
    (parseTime s = none ↔
      s = "" ∨
      ((jsSplitColon s).map jsNumber).any (·.isNone) = true ∨
      ¬((jsSplitColon s).length = 2 ∨ (jsSplitColon s).length = 3) ∨
      (∃ m sec, (jsSplitColon s).map jsNumber = [some m, some sec] ∧
        (m ≥ 60 ∨ sec ≥ 60 ∨ m < 0 ∨ sec < 0)) ∨
      (∃ hh m sec, (jsSplitColon s).map jsNumber = [some hh, some m, some sec] ∧
        (m ≥ 60 ∨ sec ≥ 60 ∨ m < 0 ∨ sec < 0 ∨ hh < 0))) ∧
    (∀ pt, parseTime s = some pt →
      pt.totalSeconds = pt.hours * 3600 + pt.minutes * 60 + pt.seconds ∧
      0 ≤ pt.minutes ∧ pt.minutes < 60 ∧ 0 ≤ pt.seconds ∧ pt.seconds < 60 ∧
      0 ≤ pt.hours ∧ ((jsSplitColon s).length = 2 ∨ (jsSplitColon s).length = 3)) := by
  have hcore := parseTimeCore_spec ((jsSplitColon s).map jsNumber)
  have hlen : ((jsSplitColon s).map jsNumber).length = (jsSplitColon s).length :=
    List.length_map _ _
  by_cases hs : s = ""
  · subst hs
    constructor
    · exact iff_of_true (by simp [parseTime]) (Or.inl rfl)
    · intro pt hpt
      exact absurd hpt (by simp [parseTime])
  · have heq : parseTime s = parseTimeCore ((jsSplitColon s).map jsNumber) := by
      simp [parseTime, hs]
    constructor
    · rw [heq, hcore.1, hlen]
      constructor
      · exact fun h => Or.inr h
      · rintro (h | h)
        · exact absurd h hs
        · exact h
    · intro pt hpt
      rw [heq] at hpt
      have h2 := hcore.2 pt hpt
      rw [hlen] at h2
      exact h2

set_option maxRecDepth 100000 in
/-- Counterexample to claim C8 as stated: the string `"0:1.5"` does not
consist of integer parts, yet `parseTime` accepts it (JavaScript `Number`
parses `"1.5"` to the non-integer 1.5). -/
theorem parseTime_accepts_fractional_cex :
    parseTime "0:1.5" = some ⟨0, 0, 3/2, 3/2⟩ ∧ ((3 : ℚ)/2).den ≠ 1 := by
  constructor
  · with_unfolding_all decide
  · with_unfolding_all decide

set_option maxRecDepth 100000 in
/-- Witness for C8: the rejection direction of the characterization applied
at the concrete string `"61:00"` (minutes out of range). -/
theorem parseTime_spec_witness : parseTime "61:00" = none :=
  (parseTime_spec "61:00").1.mpr
    (Or.inr (Or.inr (Or.inr (Or.inl
      ⟨61, 0, by with_unfolding_all decide, Or.inl (by norm_num)⟩))))

/-- `SessionType` from `src/types/index.ts`. -/
inductive SessionType
  | easy
  | threshold
  | long
  | test
  | rest
  | race
deriving DecidableEq, Repr

/-- `IntervalType` from `src/types/index.ts`. -/
inductive IntervalType
  | short
  | medium
  | long
deriving DecidableEq, Repr

/-- `RaceType` from `src/types/index.ts`. -/
inductive RaceType
  | A
  | B
deriving DecidableEq, Repr

/-- The `unit` form field (`'km' | 'mile'`). -/
inductive RunUnit
  | km
  | mile
deriving DecidableEq, Repr

/-- `Race` from `src/types/index.ts`. -/
structure Race where
  id : String
  name : String
  date : String
  type : RaceType
  distance : Distance
deriving DecidableEq, Repr

/-- `IntervalSession` from `src/types/index.ts`. -/
structure IntervalSession where
  type : IntervalType
  reps : MinMax ℕ
  duration : String
  paceRange : MinMax ℤ
  recovery : ℕ
deriving DecidableEq, Repr

/-- The `paces` sub-object of a `TrainingSession`. -/
structure SessionPaces where
  target : ℤ
  range : Option (MinMax ℤ) := none
deriving DecidableEq, Repr

/-- `TrainingSession` from `src/types/index.ts`; optional fields are
`Option`s defaulting to `none` (JavaScript `undefined`). -/
structure TrainingSession where
  day : ℤ
  type : SessionType
  title : String
  description : String
  duration : Option ℕ := none
  intervals : Option IntervalSession := none
  paces : Option SessionPaces := none
  race : Option Race := none
deriving DecidableEq, Repr

/-- `WeekPlan` from `src/types/index.ts`. -/
structure WeekPlan where
  weekNumber : ℕ
  isTestWeek : Bool
  isRecoveryWeek : Bool
  sessions : List TrainingSession
  totalVolume : ℤ
deriving DecidableEq, Repr

/-- `TrainingBlock` from `src/types/index.ts` (the optional dates are never
set by the generator and are omitted). -/
structure TrainingBlock where
  blockNumber : ℕ
  weeks : List WeekPlan
  vdot : ℚ
  paces : Paces
deriving DecidableEq, Repr

/-- `UserInput` from `src/types/index.ts` together with the `unit` field the
plan generator reads. -/
structure UserInput where
  targetDistance : Distance
  time5K : Option String := none
  time10K : Option String := none
  trainingDays : ℚ
  races : List Race := []
  unit : RunUnit := .km
deriving DecidableEq, Repr

/-- String label of a `Distance` (its TypeScript representation). -/
def distLabel : Distance → String
  | .d5K => "5K"
  | .d10K => "10K"
  | .d21K => "21K"
  | .d42K => "42K"

/-- `padStart(2, '0')` on an ASCII string. -/
def padStart2 (s : String) : String := if s.length < 2 then "0" ++ s else s

/-- `formatPace` from `src/lib/vdot.ts`. -/
def formatPace (secondsPerKm : ℚ) (unit : RunUnit) : String :=
  let pace := if unit = RunUnit.mile then secondsPerKm * 1.60934 else secondsPerKm
  let minutes := jsFloor (pace / 60)
  let seconds := jsRound (jsMod pace 60)
  toString minutes ++ ":" ++ padStart2 (toString seconds)

/-- One entry of `NS_INTERVALS.byTime` (`src/lib/paces.ts`). -/
structure NSIntervalCfg where
  reps : MinMax ℕ
  duration : String
  paceDesc : String
  recovery : ℕ
deriving DecidableEq, Repr

/-- One entry of `NS_INTERVALS.byDistance` (`src/lib/paces.ts`). -/
structure NSIntervalDistCfg where
  reps : MinMax ℕ
  distance : String
  paceDesc : String
  recovery : ℕ
deriving DecidableEq, Repr

/-- `NS_INTERVALS` from `src/lib/paces.ts`. -/
structure NSIntervalsTable where
  byTime : IntervalType → NSIntervalCfg
  byDistance : IntervalType → NSIntervalDistCfg

def NS_INTERVALS : NSIntervalsTable where
  byTime
    | .short => ⟨⟨8, 12⟩, "3–4\x27", "15K pace", 60⟩
    | .medium => ⟨⟨4, 6⟩, "6–8\x27", "HM pace", 60⟩
    | .long => ⟨⟨3, 3⟩, "10–12\x27", "~30K pace", 60⟩
  byDistance
    | .short => ⟨⟨8, 12⟩, "1K", "15K pace", 60⟩
    | .medium => ⟨⟨4, 6⟩, "2K", "HM pace", 60⟩
    | .long => ⟨⟨3, 3⟩, "3K", "~30K pace", 60⟩

/-- Field access `paces.intervals[interval]`. -/
def IntervalPaces.get (p : IntervalPaces) : IntervalType → MinMax ℤ
  | .short => p.short
  | .medium => p.medium
  | .long => p.long

/-- `WEEK_VOLUME_MULTIPLIERS` from the canonical plan generator. -/
def WEEK_VOLUME_MULTIPLIERS : List ℚ := [1.0, 1.0, 1.0, 1.0, 1.0, 0.7]

/-- A `{base, max, unload}` duration configuration row. -/
structure DurationCfg where
  base : ℕ
  max : ℕ
  unload : ℕ
deriving DecidableEq, Repr

/-- `EASY_RUN_DURATIONS` from the canonical plan generator. -/
def EASY_RUN_DURATIONS : Distance → DurationCfg
  | .d5K => ⟨45, 45, 30⟩
  | .d10K => ⟨50, 50, 35⟩
  | .d21K => ⟨60, 60, 40⟩
  | .d42K => ⟨75, 75, 50⟩

/-- `LONG_RUN_DURATIONS` from the canonical plan generator. -/
def LONG_RUN_DURATIONS : Distance → DurationCfg
  | .d5K => ⟨70, 70, 45⟩
  | .d10K => ⟨85, 85, 55⟩
  | .d21K => ⟨105, 105, 70⟩
  | .d42K => ⟨130, 130, 90⟩

/-- A `{short, medium, long}` repetition-count row. -/
structure RepsCfg where
  short : ℕ
  medium : ℕ
  long : ℕ
deriving DecidableEq, Repr

/-- Field access `weekConfig[intervalType]`. -/
def RepsCfg.get (c : RepsCfg) : IntervalType → ℕ
  | .short => c.short
  | .medium => c.medium
  | .long => c.long

/-- `INTERVAL_REPS_BY_DISTANCE` from the canonical plan generator
(stable weeks 1–5, unload at week 6). -/
def INTERVAL_REPS_BY_DISTANCE : Distance → List RepsCfg
  | .d5K => [⟨10, 5, 3⟩, ⟨10, 5, 3⟩, ⟨10, 5, 3⟩, ⟨10, 5, 3⟩, ⟨10, 5, 3⟩, ⟨6, 3, 2⟩]
  | .d10K => [⟨12, 6, 3⟩, ⟨12, 6, 3⟩, ⟨12, 6, 3⟩, ⟨12, 6, 3⟩, ⟨12, 6, 3⟩, ⟨8, 4, 2⟩]
  | .d21K => [⟨12, 6, 4⟩, ⟨12, 6, 4⟩, ⟨12, 6, 4⟩, ⟨12, 6, 4⟩, ⟨12, 6, 4⟩, ⟨8, 4, 3⟩]
  | .d42K => [⟨14, 8, 5⟩, ⟨14, 8, 5⟩, ⟨14, 8, 5⟩, ⟨14, 8, 5⟩, ⟨14, 8, 5⟩, ⟨8, 5, 3⟩]

/-- A `{type, intervalType?}` slot of the weekly template. -/
structure SessionCfg where
  type : SessionType
  intervalType : Option IntervalType := none
deriving DecidableEq, Repr

/-- `BASE_WEEK_STRUCTURE` from the canonical plan generator: the Monday to
Sunday template. -/
def BASE_WEEK_STRUCTURE : List SessionCfg :=
  [⟨.easy, none⟩,
   ⟨.threshold, some .short⟩,
   ⟨.easy, none⟩,
   ⟨.threshold, some .medium⟩,
   ⟨.easy, none⟩,
   ⟨.threshold, some .long⟩,
   ⟨.long, none⟩]

/-- `getWeekStructure` from the canonical plan generator: clamps the
requested day count to `[3,7]` (after `Math.floor`) and converts
`7 - targetDays` slots to rest following the priority list
`[4, 0, 2, 5, 3]` (Friday, Monday, Wednesday, Saturday, Thursday). -/
def getWeekStructure (trainingDays : ℚ) : List SessionCfg :=
  let targetDays : ℤ := max 3 (min 7 (jsFloor trainingDays))
  if targetDays = 7 then BASE_WEEK_STRUCTURE
  else
    let daysToRemove := (7 - targetDays).toNat
    let toRemove := [4, 0, 2, 5, 3].take daysToRemove
    toRemove.foldl
      (fun st index => if index < st.length then st.set index ⟨.rest, none⟩ else st)
      BASE_WEEK_STRUCTURE

/-- `getEasyDuration` from the canonical plan generator. -/
def getEasyDuration (weekNumber : ℕ) (targetDistance : Distance) (_day : ℤ) : ℕ :=
  if weekNumber = 6 then (EASY_RUN_DURATIONS targetDistance).unload
  else (EASY_RUN_DURATIONS targetDistance).base

/-- `getLongDuration` from the canonical plan generator. -/
def getLongDuration (weekNumber : ℕ) (targetDistance : Distance) : ℕ :=
  if weekNumber = 6 then (LONG_RUN_DURATIONS targetDistance).unload
  else (LONG_RUN_DURATIONS targetDistance).base

/-- `getIntervalReps` from the canonical plan generator; the JavaScript
fallback `distanceConfig[weekNumber - 1] || distanceConfig[0]` becomes a
`get?`/`headD` combination. -/
def getIntervalReps (weekNumber : ℕ) (intervalType : IntervalType)
    (targetDistance : Distance) : ℕ :=
  let distanceConfig := INTERVAL_REPS_BY_DISTANCE targetDistance
  let weekConfig :=
    match distanceConfig.get? (weekNumber - 1) with
    | some c => c
    | none => distanceConfig.headD ⟨0, 0, 0⟩
  weekConfig.get intervalType

/-- `createSession` from the canonical plan generator. In the `race` branch
the source reads `baseSession.race?.name || 'Race'`, and `baseSession.race`
is always absent there, so the description is the literal `"Race"`. -/
def createSession (day : ℤ) (sessionConfig : SessionCfg) (paces : Paces)
    (weekNumber : ℕ) (targetDistance : Distance) (_isTestWeek : Bool)
    (unit : RunUnit) : TrainingSession :=
  let unitLabel := if unit = RunUnit.km then "km" else "mi"
  let baseSession : TrainingSession :=
    { day := day, type := sessionConfig.type, title := "", description := "" }
  match sessionConfig.type with
  | .easy =>
    let duration := getEasyDuration weekNumber targetDistance day
    { baseSession with
      title := "Easy Run"
      description := s!"{duration} min @ easy pace"
      duration := some duration
      paces := some { target := paces.easy } }
  | .threshold =>
    let interval := sessionConfig.intervalType.getD .short
    let nsConfig := NS_INTERVALS.byTime interval
    let paceRange := paces.intervals.get interval
    let reps := getIntervalReps weekNumber interval targetDistance
    let intervalName :=
      match interval with
      | .short => "Short"
      | .medium => "Medium"
      | .long => "Long"
    let dur := nsConfig.duration
    let pmin := formatPace (paceRange.min : ℚ) unit
    let pmax := formatPace (paceRange.max : ℚ) unit
    { baseSession with
      title := s!"NS {intervalName} Sub-T"
      description := s!"{reps} Ã— {dur} @ {pmin}-{pmax}/{unitLabel} (60s rec)"
      intervals := some
        { type := interval
          reps := ⟨reps, reps⟩
          duration := nsConfig.duration
          paceRange := paceRange
          recovery := nsConfig.recovery }
      paces := some
        { target := jsRound (((paceRange.min : ℚ) + (paceRange.max : ℚ)) / 2)
          range := some paceRange } }
  | .long =>
    let duration := getLongDuration weekNumber targetDistance
    { baseSession with
      title := "Long Run"
      description := s!"{duration} min @ easy pace"
      duration := some duration
      paces := some { target := paces.easy } }
  | .test =>
    { baseSession with
      title := "Test Day"
      description := "Time trial 5K or 10K - max effort" }
  | .race =>
    { baseSession with
      title := "Race Day"
      description := "Race"
      race := none }
  | .rest =>
    { baseSession with
      title := "Rest"
      description := "Active recovery or complete rest" }

/-- `calculateWeekVolume` from the canonical plan generator. -/
def calculateWeekVolume (_weekNumber : ℕ) (sessions : List TrainingSession) : ℤ :=
  let totalMinutes : ℚ := sessions.foldl
    (fun acc session =>
      if session.type = .easy ∨ session.type = .long then
        acc + ((session.duration.getD 0 : ℕ) : ℚ)
      else if session.type = .threshold then
        match session.intervals with
        | some iv =>
          acc + (15 + (iv.reps.min : ℚ) *
            (if iv.type = .short then 3.5
             else if iv.type = .medium then 7 else 11) + 10)
        | none => acc
      else acc)
    0
  jsRound (totalMinutes / 5.5)

/-- JavaScript `Array.prototype.map` with the element index passed to the
callback, starting at `i`. -/
def mapWithIndex (f : ℕ → α → β) : ℕ → List α → List β
  | _, [] => []
  | i, a :: as => f i a :: mapWithIndex f (i + 1) as

/-- `generateWeekPlan` from the canonical plan generator: on the test week
(week 6) the Saturday slot (index 5) becomes a test day regardless of what
the day-reduction step left there. (`struct` stands for the source's local
variable `structure`, a reserved word in Lean.) -/
def generateWeekPlan (weekNumber : ℕ) (trainingDays : ℚ) (paces : Paces)
    (targetDistance : Distance) (unit : RunUnit) : WeekPlan :=
  let isTestWeek : Bool := weekNumber == 6
  let struct := getWeekStructure trainingDays
  let sessions := mapWithIndex (fun index config =>
    if isTestWeek && index == 5 then
      createSession ((index : ℤ) + 1) ⟨SessionType.test, none⟩ paces weekNumber
        targetDistance true unit
    else
      createSession ((index : ℤ) + 1) config paces weekNumber targetDistance
        isTestWeek unit) 0 struct
  let totalVolume := calculateWeekVolume weekNumber sessions
  { weekNumber := weekNumber
    isTestWeek := isTestWeek
    isRecoveryWeek := isTestWeek
    sessions := sessions
    totalVolume := totalVolume }

/-- `generateTrainingBlock` from the canonical plan generator. -/
def generateTrainingBlock (blockNumber : ℕ) (input : UserInput) (vdot : ℚ)
    (paces : Paces) : TrainingBlock :=
  let weeks := (List.range 6).map (fun w =>
    generateWeekPlan (w + 1) input.trainingDays paces input.targetDistance input.unit)
  { blockNumber := blockNumber, weeks := weeks, vdot := vdot, paces := paces }

/-- The per-session rewrite of the taper loop in `applyRaceTapering`:
threshold sessions are relabelled with reps and paces untouched, long runs
become a fixed 40-minute easy run, everything else is left alone. -/
def taperSession (session : TrainingSession) : TrainingSession :=
  if session.type = .threshold then
    { session with
      title := "NS Intervals (Taper)"
      description := "Reduced volume - maintain intensity" }
  else if session.type = .long then
    { session with
      type := .easy
      title := "Easy Run (Taper)"
      description := "40 min @ easy pace"
      duration := some 40 }
  else session

/-- Result of running `applyRaceTapering`. The source's nested `while`
loops are not total: reading `week.sessions[currentDay].type` at an index
beyond the array throws a `TypeError` (`outOfBoundsRead`), and when the
taper budget is still positive with `currentWeek = 0` and `currentDay < 0`
the outer loop repeats without changing any state (`divergent`). -/
inductive TaperResult
  | ok (block : TrainingBlock)
  | outOfBoundsRead
  | divergent
deriving DecidableEq, Repr

/-- The inner `while (currentDay >= 0 && daysToTaper > 0)` loop of
`applyRaceTapering`, recursing on the taper budget; returns the rewritten
sessions and the remaining budget, or `none` for the `TypeError` raised by
`week.sessions[currentDay].type` when `currentDay` is past the end of the
array. -/
def taperInner (sessions : List TrainingSession) (currentDay : ℤ) :
    (daysToTaper : ℕ) → Option (List TrainingSession × ℕ)
  | 0 => some (sessions, 0)
  | b + 1 =>
    if currentDay < 0 then some (sessions, b + 1)
    else
      match sessions.get? currentDay.toNat with
      | none => none
      | some session =>
        taperInner (sessions.set currentDay.toNat (taperSession session))
          (currentDay - 1) b

/-- The outer `while (daysToTaper > 0 && currentWeek >= 0)` loop of
`applyRaceTapering`, recursing on `currentWeek`. Note that — exactly as in
the source — the sessions being rewritten are always those of the *race*
week: the wrap `currentWeek--; currentDay = 6` never re-points the loop at
an earlier week's sessions. When the budget is still positive and
`currentWeek` is 0, the loop body changes nothing and the source spins
forever. -/
inductive TaperLoopResult
  | done (sessions : List TrainingSession)
  | typeError
  | stuck
deriving DecidableEq, Repr

def taperOuter (currentWeek : ℕ) (sessions : List TrainingSession)
    (daysToTaper : ℕ) (currentDay : ℤ) : TaperLoopResult :=
  if daysToTaper = 0 then .done sessions
  else
    match taperInner sessions currentDay daysToTaper with
    | none => .typeError
    | some (sessions', b') =>
      if b' = 0 then .done sessions'
      else
        match currentWeek with
        | 0 => .stuck
        | w + 1 => taperOuter w sessions' b' 6

/-- The race-day session written over `week.sessions[dayIndex]` by
`applyRaceTapering`. -/
def raceSession (race : Race) (raceDay : ℤ) : TrainingSession :=
  { day := raceDay
    type := .race
    title := "Race Day: " ++ race.name
    description := distLabel race.distance ++ " race - " ++
      (if race.type = RaceType.A then "Priority" else "Tune-up")
    race := some race }

/-- `applyRaceTapering` from the canonical plan generator. `taperDays` is 7
for a type-A race and 3 for a type-B race; an out-of-range `raceWeek`
returns the block unchanged; an in-range `raceDay` slot is overwritten by
the race session; then the backward taper walk runs (see `taperOuter` for
its two failure modes). -/
def applyRaceTapering (block : TrainingBlock) (race : Race)
    (raceWeek raceDay : ℤ) : TaperResult :=
  let taperDays : ℕ := if race.type = RaceType.A then 7 else 3
  let weekIndex := raceWeek - 1
  if weekIndex < 0 ∨ weekIndex ≥ (block.weeks.length : ℤ) then .ok block
  else
    match block.weeks.get? weekIndex.toNat with
    | none => .ok block
    | some week =>
      let dayIndex := raceDay - 1
      let sessions0 :=
        if 0 ≤ dayIndex ∧ dayIndex < (week.sessions.length : ℤ) then
          week.sessions.set dayIndex.toNat (raceSession race raceDay)
        else week.sessions
      match taperOuter weekIndex.toNat sessions0 taperDays (dayIndex - 1) with
      | .done sessions' =>
        .ok { block with
          weeks := block.weeks.set weekIndex.toNat { week with sessions := sessions' } }
      | .typeError => .outOfBoundsRead
      | .stuck => .divergent

/-- Truthiness of an optional string (`if (input.time10K)`): present and
nonempty. -/
def strTruthy : Option String → Bool
  | none => false
  | some s => s ≠ ""

/-- `createTrainingPlan` from the canonical plan generator, with the
floating-point `calculateVDOT` abstracted as `cvd : distanceMeters → time →
vdot` and the binary-search comparisons as the oracle `ofl`. The guard
`if (parsed)` is JavaScript truthiness, so a time parsing to 0 falls into
the error branch. The race list is accepted but unused (the tapering pass
is commented out in the source). -/
def createTrainingPlan (cvd : ℚ → ℚ → ℚ) (ofl : VdotOracle)
    (input : UserInput) : Except String TrainingBlock :=
  if strTruthy input.time10K then
    match parseTimeString (input.time10K.getD "") with
    | some parsed =>
      if parsed ≠ 0 then
        let vdot := cvd (DISTANCE_METERS .d10K) parsed
        Except.ok (generateTrainingBlock 1 input vdot (calculatePaces ofl vdot))
      else Except.error "Invalid 10K time format"
    | none => Except.error "Invalid 10K time format"
  else if strTruthy input.time5K then
    match parseTimeString (input.time5K.getD "") with
    | some parsed =>
      if parsed ≠ 0 then
        let vdot := cvd (DISTANCE_METERS .d5K) parsed
        Except.ok (generateTrainingBlock 1 input vdot (calculatePaces ofl vdot))
      else Except.error "Invalid 5K time format"
    | none => Except.error "Invalid 5K time format"
  else Except.error "At least one race time is required"

/-- A placeholder session used only as the default of out-of-range list
lookups in statements (never actually selected, since the lists have the
stated lengths). -/
def emptySession : TrainingSession :=
  { day := 0, type := .rest, title := "", description := "" }

/-- Claim C3: for every `trainingDays` value (clamped to [3,7] after
`Math.floor`), the week structure has one entry per day (length 7) and
converts exactly `7 - trainingDays` entries to rest, namely exactly the
first `7 - trainingDays` indices of the fixed priority list
`[4, 0, 2, 5, 3]` (Friday-easy, Monday-easy, Wednesday-easy,
Saturday-threshold-long, Thursday-threshold-medium); all other entries keep
their template value, and in particular Tuesday (index 1, threshold-short)
and Sunday (index 6, long) are never converted to rest. -/
theorem getWeekStructure_spec (td : ℚ) :
    (getWeekStructure td).length = 7 ∧
    ((getWeekStructure td).filter (fun c => c.type == SessionType.rest)).length
      = (7 - max 3 (min 7 (jsFloor td))).toNat ∧
    (∀ i : ℕ, i < 7 →
      (((getWeekStructure td).getD i ⟨.rest, none⟩).type = SessionType.rest ↔
        i ∈ [4, 0, 2, 5, 3].take (7 - max 3 (min 7 (jsFloor td))).toNat)) ∧
    (∀ i : ℕ, i < 7 →
      i ∉ [4, 0, 2, 5, 3].take (7 - max 3 (min 7 (jsFloor td))).toNat →
      (getWeekStructure td).getD i ⟨.rest, none⟩
        = BASE_WEEK_STRUCTURE.getD i ⟨.rest, none⟩) ∧
    ((getWeekStructure td).getD 1 ⟨.rest, none⟩).type = SessionType.threshold ∧
    ((getWeekStructure td).getD 6 ⟨.rest, none⟩).type = SessionType.long := by
  have hm : max 3 (min 7 (jsFloor td)) = 3 ∨ max 3 (min 7 (jsFloor td)) = 4 ∨
      max 3 (min 7 (jsFloor td)) = 5 ∨ max 3 (min 7 (jsFloor td)) = 6 ∨
      max 3 (min 7 (jsFloor td)) = 7 := by omega
  rcases hm with h | h | h | h | h <;> simp only [getWeekStructure, h] <;> decide

/-- Witness for C3 at `trainingDays = 3`: Friday (index 4) is rest and
Tuesday (index 1) is still a threshold day. -/
theorem getWeekStructure_spec_witness :
    (((getWeekStructure 3).getD 4 ⟨.rest, none⟩).type = SessionType.rest) ∧
    ((getWeekStructure 3).getD 1 ⟨.rest, none⟩).type = SessionType.threshold := by
  refine ⟨((getWeekStructure_spec 3).2.2.1 4 (by norm_num)).mpr ?_, (getWeekStructure_spec 3).2.2.2.2.1⟩
  have h : (7 - max 3 (min 7 (jsFloor (3 : ℚ)))).toNat = 4 := by
    simp [jsFloor]
  rw [h]
  decide

/-- The observable shape of a session: its type together with the interval
type of its threshold block, if any. -/
def sessionShape (s : TrainingSession) : SessionType × Option IntervalType :=
  (s.type, s.intervals.map (fun iv => iv.type))

/-- Shape of the canonical 7-day template week. -/
def shapeStdWeek : List (SessionType × Option IntervalType) :=
  [(SessionType.easy, none), (SessionType.threshold, some IntervalType.short),
   (SessionType.easy, none), (SessionType.threshold, some IntervalType.medium),
   (SessionType.easy, none), (SessionType.threshold, some IntervalType.long),
   (SessionType.long, none)]

/-- Shape of the 7-day template week with the Saturday test override. -/
def shapeTestWeek : List (SessionType × Option IntervalType) :=
  [(SessionType.easy, none), (SessionType.threshold, some IntervalType.short),
   (SessionType.easy, none), (SessionType.threshold, some IntervalType.medium),
   (SessionType.easy, none), (SessionType.test, none),
   (SessionType.long, none)]

/-- `createSession` always returns a session of the requested type, with an
interval block exactly for threshold sessions. -/
theorem createSession_sessionShape (day : ℤ) (cfg : SessionCfg) (paces : Paces)
    (w : ℕ) (dist : Distance) (tw : Bool) (unit : RunUnit) :
    sessionShape (createSession day cfg paces w dist tw unit) =
      (cfg.type,
        if cfg.type = SessionType.threshold then some (cfg.intervalType.getD .short)
        else none) := by
  obtain ⟨t, it⟩ := cfg
  cases t <;> rfl

/-- `getWeekStructure` at a full 7-day request is the bare template. -/
theorem getWeekStructure_seven : getWeekStructure 7 = BASE_WEEK_STRUCTURE := by
  simp [getWeekStructure, jsFloor]

/-- The five concrete structures `getWeekStructure` can produce. -/
theorem getWeekStructure_cases (td : ℚ) :
    getWeekStructure td = BASE_WEEK_STRUCTURE ∨
    getWeekStructure td =
      [⟨.easy, none⟩, ⟨.threshold, some .short⟩, ⟨.easy, none⟩,
       ⟨.threshold, some .medium⟩, ⟨.rest, none⟩, ⟨.threshold, some .long⟩,
       ⟨.long, none⟩] ∨
    getWeekStructure td =
      [⟨.rest, none⟩, ⟨.threshold, some .short⟩, ⟨.easy, none⟩,
       ⟨.threshold, some .medium⟩, ⟨.rest, none⟩, ⟨.threshold, some .long⟩,
       ⟨.long, none⟩] ∨
    getWeekStructure td =
      [⟨.rest, none⟩, ⟨.threshold, some .short⟩, ⟨.rest, none⟩,
       ⟨.threshold, some .medium⟩, ⟨.rest, none⟩, ⟨.threshold, some .long⟩,
       ⟨.long, none⟩] ∨
    getWeekStructure td =
      [⟨.rest, none⟩, ⟨.threshold, some .short⟩, ⟨.rest, none⟩,
       ⟨.threshold, some .medium⟩, ⟨.rest, none⟩, ⟨.rest, none⟩,
       ⟨.long, none⟩] := by
  have hm : max 3 (min 7 (jsFloor td)) = 3 ∨ max 3 (min 7 (jsFloor td)) = 4 ∨
      max 3 (min 7 (jsFloor td)) = 5 ∨ max 3 (min 7 (jsFloor td)) = 6 ∨
      max 3 (min 7 (jsFloor td)) = 7 := by omega
  rcases hm with h | h | h | h | h <;> simp only [getWeekStructure, h] <;> decide

/-- Weeks 1–5 of a 7-day plan follow the canonical template shape. -/
theorem generateWeekPlan_shape_std (w : ℕ) (paces : Paces) (dist : Distance)
    (unit : RunUnit) (hw : w ≠ 6) :
    (generateWeekPlan w 7 paces dist unit).sessions.map sessionShape = shapeStdWeek := by
  have hb : (w == 6) = false := by simpa using hw
  simp [generateWeekPlan, getWeekStructure_seven, BASE_WEEK_STRUCTURE, mapWithIndex,
    hb, createSession_sessionShape, shapeStdWeek]

/-- Week 6 of a 7-day plan has the Saturday slot forced to a test day. -/
theorem generateWeekPlan_shape_test (paces : Paces) (dist : Distance) (unit : RunUnit) :
    (generateWeekPlan 6 7 paces dist unit).sessions.map sessionShape = shapeTestWeek := by
  simp [generateWeekPlan, getWeekStructure_seven, BASE_WEEK_STRUCTURE, mapWithIndex,
    createSession_sessionShape, shapeTestWeek]

/-- Whatever the day-reduction step produced (including a rest day), week 6
carries a test session at Saturday (index 5). -/
theorem generateWeekPlan_week6_saturday_test (td : ℚ) (paces : Paces)
    (dist : Distance) (unit : RunUnit) :
    ((generateWeekPlan 6 td paces dist unit).sessions.getD 5 emptySession).type
      = SessionType.test := by
  rcases getWeekStructure_cases td with h | h | h | h | h <;>
    simp [generateWeekPlan, h, mapWithIndex, createSession]

/-- Claim C2: for every generated block with `trainingDays = 7`, each of the
six weeks' 7 sessions follows the canonical template
[easy, threshold-short, easy, threshold-medium, easy, threshold-long, long]
(Monday through Sunday), except that in week 6 the Saturday slot (index 5)
is a test session; moreover the week-6 Saturday override is unconditional —
for every `trainingDays` (so also when day-reduction put a rest day there),
week 6 carries a test session at index 5. -/
theorem generateTrainingBlock_template (bn : ℕ) (input : UserInput) (vdot : ℚ)
    (paces : Paces) (h7 : input.trainingDays = 7) :
    ((generateTrainingBlock bn input vdot paces).weeks.map
        (fun wk => wk.sessions.map sessionShape)) =
      [shapeStdWeek, shapeStdWeek, shapeStdWeek, shapeStdWeek, shapeStdWeek,
       shapeTestWeek] ∧
    (∀ td : ℚ,
      ((generateWeekPlan 6 td paces input.targetDistance input.unit).sessions.getD 5
          emptySession).type = SessionType.test) := by
  constructor
  · have hrange : List.range 6 = [0, 1, 2, 3, 4, 5] := rfl
    simp only [generateTrainingBlock, h7, hrange, List.map_cons, List.map_nil]
    rw [generateWeekPlan_shape_std 1 _ _ _ (by norm_num),
      generateWeekPlan_shape_std 2 _ _ _ (by norm_num),
      generateWeekPlan_shape_std 3 _ _ _ (by norm_num),
      generateWeekPlan_shape_std 4 _ _ _ (by norm_num),
      generateWeekPlan_shape_std 5 _ _ _ (by norm_num),
      generateWeekPlan_shape_test]
  · intro td
    exact generateWeekPlan_week6_saturday_test td paces input.targetDistance input.unit

/-- Witness for C2 at a concrete 7-day input. -/
theorem generateTrainingBlock_template_witness :
    ((generateTrainingBlock 1
        { targetDistance := Distance.d10K, trainingDays := 7 } 50
        ⟨230, 318, ⟨⟨225, 232⟩, ⟨232, 239⟩, ⟨238, 246⟩⟩⟩).weeks.map
        (fun wk => wk.sessions.map sessionShape)) =
      [shapeStdWeek, shapeStdWeek, shapeStdWeek, shapeStdWeek, shapeStdWeek,
       shapeTestWeek] :=
  (generateTrainingBlock_template 1
    { targetDistance := Distance.d10K, trainingDays := 7 } 50
    ⟨230, 318, ⟨⟨225, 232⟩, ⟨232, 239⟩, ⟨238, 246⟩⟩⟩ rfl).1

/-- A generated block always has exactly 6 weeks. -/
theorem generateTrainingBlock_weeks_length (bn : ℕ) (input : UserInput)
    (vdot : ℚ) (paces : Paces) :
    (generateTrainingBlock bn input vdot paces).weeks.length = 6 := by
  simp [generateTrainingBlock]

/-- A constant stand-in for the floating-point `calculateVDOT`, used to
instantiate oracle-parameterized theorems at concrete inputs. -/
def cvdConst : ℚ → ℚ → ℚ := fun _ _ => 50

/-- The oracle that reports a tolerance hit at once. -/
def oflRet : VdotOracle := fun _ _ _ => .ret

/-- Claim C1 (amended): `createTrainingPlan` raises
"At least one race time is required" when neither `time5K` nor `time10K` is
given (absent or empty); raises "Invalid 10K time format" (resp. 5K) when
the time string it uses fails parsing **or parses to 0 seconds** (the
source's `if (parsed)` is a JavaScript truthiness test); otherwise returns
the 6-week block built from the parsed time, preferring the 10K time over
the 5K time when both are present. -/
theorem createTrainingPlan_spec (cvd : ℚ → ℚ → ℚ) (ofl : VdotOracle)
    (input : UserInput) :
    (strTruthy input.time10K = false → strTruthy input.time5K = false →
      createTrainingPlan cvd ofl input =
        .error "At least one race time is required") ∧
    (∀ s, input.time10K = some s → s ≠ "" →
      (parseTimeString s = none →
        createTrainingPlan cvd ofl input = .error "Invalid 10K time format") ∧
      (parseTimeString s = some 0 →
        createTrainingPlan cvd ofl input = .error "Invalid 10K time format") ∧
      (∀ v, parseTimeString s = some v → v ≠ 0 →
        createTrainingPlan cvd ofl input =
          .ok (generateTrainingBlock 1 input (cvd 10000 v)
            (calculatePaces ofl (cvd 10000 v))))) ∧
    (∀ s, strTruthy input.time10K = false → input.time5K = some s → s ≠ "" →
      (parseTimeString s = none →
        createTrainingPlan cvd ofl input = .error "Invalid 5K time format") ∧
      (parseTimeString s = some 0 →
        createTrainingPlan cvd ofl input = .error "Invalid 5K time format") ∧
      (∀ v, parseTimeString s = some v → v ≠ 0 →
        createTrainingPlan cvd ofl input =
          .ok (generateTrainingBlock 1 input (cvd 5000 v)
            (calculatePaces ofl (cvd 5000 v))))) ∧
    (∀ b, createTrainingPlan cvd ofl input = .ok b → b.weeks.length = 6) := by
  refine ⟨?_, ?_, ?_, ?_⟩
  · intro h10 h5
    simp [createTrainingPlan, h10, h5]
  · intro s hs hne
    have ht : strTruthy input.time10K = true := by simp [strTruthy, hs, hne]
    have hg : input.time10K.getD "" = s := by simp [hs]
    refine ⟨fun hp => ?_, fun hp => ?_, fun v hp hv => ?_⟩
    · simp [createTrainingPlan, ht, hg, hp]
    · simp [createTrainingPlan, ht, hg, hp]
    · simp [createTrainingPlan, ht, hg, hp, hv, DISTANCE_METERS]
  · intro s h10 hs hne
    have ht : strTruthy input.time5K = true := by simp [strTruthy, hs, hne]
    have hg : input.time5K.getD "" = s := by simp [hs]
    refine ⟨fun hp => ?_, fun hp => ?_, fun v hp hv => ?_⟩
    · simp [createTrainingPlan, h10, ht, hg, hp]
    · simp [createTrainingPlan, h10, ht, hg, hp]
    · simp [createTrainingPlan, h10, ht, hg, hp, hv, DISTANCE_METERS]
  · intro b hb
    unfold createTrainingPlan at hb
    split at hb
    · split at hb
      · split at hb
        · obtain rfl : _ = b := Except.ok.inj hb
          exact generateTrainingBlock_weeks_length _ _ _ _
        · exact absurd hb (by simp)
      · exact absurd hb (by simp)
    · split at hb
      · split at hb
        · split at hb
          · obtain rfl : _ = b := Except.ok.inj hb
            exact generateTrainingBlock_weeks_length _ _ _ _
          · exact absurd hb (by simp)
        · exact absurd hb (by simp)
      · exact absurd hb (by simp)

set_option maxRecDepth 100000 in
/-- Counterexample to claim C1 as stated: with `time10K = "0:00"` the time
string parses successfully (to 0 seconds), yet `createTrainingPlan` raises
"Invalid 10K time format" instead of returning a block, because the
JavaScript guard `if (parsed)` treats the number 0 as falsy. -/
theorem createTrainingPlan_zero_time_cex :
    parseTimeString "0:00" = some 0 ∧
    createTrainingPlan cvdConst oflRet
      { targetDistance := .d10K, time10K := some "0:00", trainingDays := 5 }
      = .error "Invalid 10K time format" := by
  have hp : parseTimeString "0:00" = some 0 := by with_unfolding_all decide
  have ht : strTruthy (some "0:00") = true := by decide
  exact ⟨hp, by simp [createTrainingPlan, ht, hp]⟩

set_option maxRecDepth 100000 in
/-- Witness for C1: both times present, the 10K one is preferred and a
6-week block is returned. -/
theorem createTrainingPlan_spec_witness :
    createTrainingPlan cvdConst oflRet
      { targetDistance := .d10K, time5K := some "20:00", time10K := some "37:00",
        trainingDays := 5 }
      = .ok (generateTrainingBlock 1
          { targetDistance := .d10K, time5K := some "20:00",
            time10K := some "37:00", trainingDays := 5 }
          (cvdConst 10000 2220) (calculatePaces oflRet (cvdConst 10000 2220))) :=
  ((createTrainingPlan_spec cvdConst oflRet
      { targetDistance := .d10K, time5K := some "20:00", time10K := some "37:00",
        trainingDays := 5 }).2.1 "37:00" rfl (by decide)).2.2 2220
    (by with_unfolding_all decide) (by norm_num)

/-- Whether a taper result carries a block. -/
def TaperResult.isOk : TaperResult → Bool
  | .ok _ => true
  | _ => false

/-- The block of a taper result, with a fallback default. -/
def TaperResult.getOk (r : TaperResult) (d : TrainingBlock) : TrainingBlock :=
  match r with
  | .ok b => b
  | _ => d

/-- A placeholder week used as the default of out-of-range lookups in
statements. -/
def emptyWeek : WeekPlan := ⟨0, false, false, [], 0⟩

/-- Demo paces for concrete evaluations (the rounded values for VDOT ≈ 50). -/
def pacesDemo : Paces := ⟨230, 318, ⟨⟨225, 232⟩, ⟨232, 239⟩, ⟨238, 246⟩⟩⟩

def inputDemo : UserInput :=
  { targetDistance := .d10K, time10K := some "37:00", trainingDays := 7 }

/-- A concrete 6-week block produced by the generator. -/
def blockDemo : TrainingBlock := generateTrainingBlock 1 inputDemo 50 pacesDemo

/-- A concrete type-A race. -/
def raceDemoA : Race := ⟨"r1", "Spring 10K", "2026-04-01", .A, .d10K⟩

/-- A minimal template week (types as in `BASE_WEEK_STRUCTURE`), used to
build small concrete blocks for evaluating `applyRaceTapering`. -/
def weekTpl (n : ℕ) : WeekPlan :=
  ⟨n, false, false,
    [{ day := 1, type := .easy, title := "", description := "" },
     { day := 2, type := .threshold, title := "", description := "" },
     { day := 3, type := .easy, title := "", description := "" },
     { day := 4, type := .threshold, title := "", description := "" },
     { day := 5, type := .easy, title := "", description := "" },
     { day := 6, type := .threshold, title := "", description := "" },
     { day := 7, type := .long, title := "", description := "" }], 0⟩

/-- A small concrete 6-week block. -/
def blockSmall : TrainingBlock :=
  ⟨1, [weekTpl 1, weekTpl 2, weekTpl 3, weekTpl 4, weekTpl 5, weekTpl 6], 50, pacesDemo⟩

set_option maxRecDepth 100000 in
/-- Claim C6 is the intended behaviour, but the code has a slip: when the
taper window crosses the week boundary, the wrap `currentWeek--;
currentDay = 6` re-walks the sessions of the race week itself from Sunday down
(the local `week` is never re-pointed at the previous week), so the
preceding week is never rewritten and the sessions of the race week *after* the
race get taper-rewritten instead. Evaluation at the failing input
(type-A race, week 2, Monday): week 1 is returned unchanged — its Sunday
long run, which the claim says becomes a 40-minute easy run, is still a
long run — while the Sunday of the race week itself (after the race) got the
40-minute taper rewrite. -/
theorem applyRaceTapering_crossweek_bug :
    (applyRaceTapering blockSmall raceDemoA 2 1).isOk = true ∧
    ((applyRaceTapering blockSmall raceDemoA 2 1).getOk blockSmall).weeks.get? 0
      = blockSmall.weeks.get? 0 ∧
    ((blockSmall.weeks.getD 0 emptyWeek).sessions.getD 6 emptySession).type
      = SessionType.long ∧
    ((((applyRaceTapering blockSmall raceDemoA 2 1).getOk blockSmall).weeks.getD 1
        emptyWeek).sessions.getD 6 emptySession).type = SessionType.easy ∧
    ((((applyRaceTapering blockSmall raceDemoA 2 1).getOk blockSmall).weeks.getD 1
        emptyWeek).sessions.getD 6 emptySession).title = "Easy Run (Taper)" ∧
    ((((applyRaceTapering blockSmall raceDemoA 2 1).getOk blockSmall).weeks.getD 1
        emptyWeek).sessions.getD 6 emptySession).duration = some 40 := by
  refine ⟨?_, ?_, ?_, ?_, ?_, ?_⟩ <;> with_unfolding_all decide

set_option maxRecDepth 100000 in
/-- Counterexample to claim C10 as stated: for a week-1 type-A race on the
Monday there are no preceding days in the week, the taper budget stays
positive with `currentWeek = 0`, and the outer `while` loop of the source
repeats without changing any state — the function never returns a block at
all, so it cannot "leave every other week unchanged". -/
theorem applyRaceTapering_week1_diverges_cex :
    applyRaceTapering blockSmall raceDemoA 1 1 = TaperResult.divergent := by
  with_unfolding_all decide

/-- Claim C10 (amended): whenever `applyRaceTapering` returns a block (for a
week-1 race whose taper budget exceeds the preceding days it spins forever,
and for `raceDay` at least two past the week length it throws on an
out-of-bounds read), the returned block keeps `blockNumber`, `vdot` and
`paces`, and every week other than the race week is the corresponding input
week; when `raceWeek` is outside 1..6 (for a 6-week block) the entire block
is returned unchanged. -/
theorem applyRaceTapering_frame (block : TrainingBlock) (race : Race)
    (raceWeek raceDay : ℤ) :
    (∀ b, applyRaceTapering block race raceWeek raceDay = .ok b →
      b.blockNumber = block.blockNumber ∧ b.vdot = block.vdot ∧
      b.paces = block.paces ∧
      ∀ i : ℕ, (i : ℤ) ≠ raceWeek - 1 → b.weeks[i]? = block.weeks[i]?) ∧
    (block.weeks.length = 6 → (raceWeek < 1 ∨ 6 < raceWeek) →
      applyRaceTapering block race raceWeek raceDay = .ok block) := by
  constructor
  · intro b hb
    unfold applyRaceTapering at hb
    split at hb <;>
    · simp only [] at hb
      split at hb
      · obtain rfl : block = b := TaperResult.ok.inj hb
        exact ⟨rfl, rfl, rfl, fun i _ => rfl⟩
      · rename_i hrange
        split at hb
        · obtain rfl : block = b := TaperResult.ok.inj hb
          exact ⟨rfl, rfl, rfl, fun i _ => rfl⟩
        · split at hb <;>
            first
            | (obtain rfl := TaperResult.ok.inj hb
               refine ⟨rfl, rfl, rfl, fun i hi => ?_⟩
               refine List.getElem?_set_ne ?_
               omega)
            | exact absurd hb (by simp)
  · intro hlen hout
    unfold applyRaceTapering
    rw [if_pos (by omega)]

set_option maxRecDepth 100000 in
/-- Witness for C10 at a concrete out-of-range race week. -/
theorem applyRaceTapering_frame_witness :
    applyRaceTapering blockSmall raceDemoA 9 1 = .ok blockSmall :=
  (applyRaceTapering_frame blockSmall raceDemoA 9 1).2
    (by with_unfolding_all decide) (Or.inr (by norm_num))
